import Mathlib

/-!
Verification of the leaf-server protocol engine (`src/server.rs`) and the
chat protocol (`src/chat/mod.rs`) of the rusty-drone server contribution,
as a shallow embedding.  Channels are modelled by endpoint identifiers
together with an environment that decides which endpoints accept sends;
every observable action of the engine is recorded in an effect trace.
-/

/-- Identifier of a network participant (`wg_2024::network::NodeId`). -/
abbrev NodeId := Nat

/-- Session identifier (`common_structs::types::Session`, a `u64`). -/
abbrev Session := Nat

/-- Fragment index (`common_structs::types::FragmentIdx`, a `u64`). -/
abbrev FragmentIdx := Nat

/-- A send endpoint (`crossbeam_channel::Sender`), modelled by its identity. -/
abbrev Sender := Nat

/-- Modulus of the 64-bit unsigned integers used for session ids. -/
def U64MOD : Nat := 2 ^ 64

/-- Lookup in an association-list map (model of `HashMap::get`). -/
def alookup {κ α : Type} [DecidableEq κ] : List (κ × α) → κ → Option α
  | [], _ => none
  | (k', v) :: t, k => if k = k' then some v else alookup t k

/-- Insert/overwrite in an association-list map (model of `HashMap::insert`). -/
def ainsert {κ α : Type} [DecidableEq κ] : List (κ × α) → κ → α → List (κ × α)
  | [], k, v => [(k, v)]
  | (k', v') :: t, k, v => if k = k' then (k, v) :: t else (k', v') :: ainsert t k v

/-- Removal from an association-list map (model of `HashMap::remove`). -/
def aerase {κ α : Type} [DecidableEq κ] : List (κ × α) → κ → List (κ × α)
  | [], _ => []
  | (k', v') :: t, k => if k = k' then aerase t k else (k', v') :: aerase t k

/-- Modelled from the spec: the source route of `wg_2024` packets
(`SourceRoutingHeader`, aliased `Routing`), an ordered sequence of node ids
plus an index pointing at the current hop (spec section 3). -/
structure Routing where
  hop_index : Nat
  hops : List NodeId
deriving DecidableEq, Repr

namespace Routing

/-- Modelled from the spec: read the source, the first element of the route. -/
def source (r : Routing) : Option NodeId := r.hops.head?

/-- Modelled from the spec: read the destination, the last element of the route. -/
def destination (r : Routing) : Option NodeId := r.hops.getLast?

/-- Modelled from the spec: read the hop the index currently points at. -/
def current_hop (r : Routing) : Option NodeId := r.hops.get? r.hop_index

/-- Modelled from the spec: reverse, producing the return route with the
index reset to the start. -/
def get_reversed (r : Routing) : Routing := ⟨0, r.hops.reverse⟩

/-- Modelled from the spec: advance the hop index by one. -/
def increase_hop_index (r : Routing) : Routing := ⟨r.hop_index + 1, r.hops⟩

/-- Modelled from the spec: build a route whose index points just past the
first element, the position used for routes that are ready to send
(`SourceRoutingHeader::with_first_hop`). -/
def with_first_hop (hops : List NodeId) : Routing := ⟨1, hops⟩

/-- Modelled from the spec: append a hop at the end of the route. -/
def append_hop (r : Routing) (hop : NodeId) : Routing := ⟨r.hop_index, r.hops ++ [hop]⟩

end Routing

/-- Modelled from the spec: a message fragment (`wg_2024::packet::Fragment`). -/
structure Fragment where
  fragment_index : FragmentIdx
  total_n_fragments : Nat
  data : List Nat
deriving DecidableEq, Repr

/-- Modelled from the spec: fragment acknowledgement (`wg_2024::packet::Ack`). -/
structure Ack where
  fragment_index : FragmentIdx
deriving DecidableEq, Repr

/-- Modelled from the spec: the kinds of negative acknowledgement
(`wg_2024::packet::NackType`). -/
inductive NackType where
  | ErrorInRouting (node_id : NodeId)
  | DestinationIsDrone
  | Dropped
  | UnexpectedRecipient (node_id : NodeId)
deriving DecidableEq, Repr

/-- Modelled from the spec: negative acknowledgement (`wg_2024::packet::Nack`). -/
structure Nack where
  fragment_index : FragmentIdx
  nack_type : NackType
deriving DecidableEq, Repr

/-- Modelled from the spec: the type of a node (`wg_2024::packet::NodeType`). -/
inductive NodeType where
  | Client
  | Drone
  | Server
deriving DecidableEq, Repr

/-- Modelled from the spec: a discovery probe (`wg_2024::packet::FloodRequest`). -/
structure FloodRequest where
  flood_id : Nat
  initiator_id : NodeId
  path_trace : List (NodeId × NodeType)
deriving DecidableEq, Repr

/-- Modelled from the spec: a discovery reply (`wg_2024::packet::FloodResponse`). -/
structure FloodResponse where
  flood_id : Nat
  path_trace : List (NodeId × NodeType)
deriving DecidableEq, Repr

/-- Modelled from the spec: the packet kinds (`wg_2024::packet::PacketType`). -/
inductive PacketType where
  | MsgFragment (fragment : Fragment)
  | Ack (ack : Ack)
  | Nack (nack : Nack)
  | FloodRequest (request : FloodRequest)
  | FloodResponse (response : FloodResponse)
deriving DecidableEq, Repr

/-- Modelled from the spec: a wire packet (`wg_2024::packet::Packet`). -/
structure Packet where
  routing_header : Routing
  session_id : Session
  pack_type : PacketType
deriving DecidableEq, Repr

/-- Modelled from the spec: the fragment index carried by a packet
(`Packet::get_fragment_index`); the engine only uses it on `MsgFragment`s. -/
def Packet.get_fragment_index (p : Packet) : FragmentIdx :=
  match p.pack_type with
  | .MsgFragment fragment => fragment.fragment_index
  | .Ack ack => ack.fragment_index
  | .Nack nack => nack.fragment_index
  | _ => 0

/-- Modelled from the spec: the server-type tag carried by
`RespServerType` (`common_structs::message::ServerType`). -/
inductive ServerType where
  | Chat
  | Text (uuid : Nat)
  | Media (uuid : Nat)
deriving DecidableEq, Repr

/-- Modelled from the spec: the application message variants seen by the
protocols (`common_structs::message::Message`, spec section 6). -/
inductive Message where
  | ReqServerType
  | RespServerType (stype : ServerType)
  | ReqChatRegistration
  | ReqChatClients
  | RespClientList (clients : List NodeId)
  | ReqChatSend (dest : NodeId) (chat_msg : List Nat)
  | RespChatFrom (client : NodeId) (chat_msg : List Nat)
  | ReqFilesList
  | ErrNotExistentClient
  | ErrUnsupportedRequestType
deriving DecidableEq, Repr

/-- Modelled from the spec: byte encoding of a server type. -/
def ServerType.encode : ServerType → List Nat
  | .Chat => [0]
  | .Text uuid => [1, uuid]
  | .Media uuid => [2, uuid]

/-- Modelled from the spec: a `Message` serialises into bytes; the concrete
format is opaque to the engine, so any injective encoding is faithful. -/
def Message.encode : Message → List Nat
  | .ReqServerType => [0]
  | .RespServerType stype => 1 :: stype.encode
  | .ReqChatRegistration => [2]
  | .ReqChatClients => [3]
  | .RespClientList clients => 4 :: clients.length :: clients
  | .ReqChatSend dest chat_msg => 5 :: dest :: chat_msg.length :: chat_msg
  | .RespChatFrom client chat_msg => 6 :: client :: chat_msg.length :: chat_msg
  | .ReqFilesList => [7]
  | .ErrNotExistentClient => [8]
  | .ErrUnsupportedRequestType => [9]

/-- Modelled from the spec: decoding bytes back into a server type. -/
def ServerType.decode : List Nat → Option ServerType
  | [0] => some .Chat
  | [1, uuid] => some (.Text uuid)
  | [2, uuid] => some (.Media uuid)
  | _ => none

/-- Modelled from the spec: decoding bytes back into a `Message`; fails when
the bytes do not parse. -/
def Message.decode : List Nat → Option Message
  | [0] => some .ReqServerType
  | 1 :: rest => (ServerType.decode rest).map Message.RespServerType
  | [2] => some .ReqChatRegistration
  | [3] => some .ReqChatClients
  | 4 :: n :: rest => if rest.length = n then some (.RespClientList rest) else none
  | 5 :: dest :: n :: rest => if rest.length = n then some (.ReqChatSend dest rest) else none
  | 6 :: client :: n :: rest => if rest.length = n then some (.RespChatFrom client rest) else none
  | [7] => some .ReqFilesList
  | [8] => some .ErrNotExistentClient
  | [9] => some .ErrUnsupportedRequestType
  | _ => none

/-- Modelled from the spec: fragment payload capacity (128 bytes). -/
def FRAGMENT_DSIZE : Nat := 128

/-- Split a byte list into chunks of at most `FRAGMENT_DSIZE` bytes; the
fuel (an upper bound on the number of chunks) makes the recursion
structural. -/
def chunkBytesAux : Nat → List Nat → List (List Nat)
  | 0, l => [l]
  | fuel + 1, l =>
    if l.length ≤ FRAGMENT_DSIZE then [l]
    else l.take FRAGMENT_DSIZE :: chunkBytesAux fuel (l.drop FRAGMENT_DSIZE)

/-- Split a byte list into chunks of at most `FRAGMENT_DSIZE` bytes. -/
def chunkBytes (l : List Nat) : List (List Nat) :=
  chunkBytesAux l.length l

/-- Number the chunks of a message into fragments. -/
def fragmentsOf (total : Nat) : Nat → List (List Nat) → List Fragment
  | _, [] => []
  | i, c :: t => ⟨i, total, c⟩ :: fragmentsOf total (i + 1) t

/-- Modelled from the spec: a `Message` serialises into `N` ordered
fragments with correct `total_n_fragments` (`Message::into_fragments`). -/
def Message.into_fragments (m : Message) : List Fragment :=
  let cs := chunkBytes m.encode
  fragmentsOf cs.length 0 cs

/-- Insert a fragment into a list sorted by fragment index. -/
def insertByIdx (f : Fragment) : List Fragment → List Fragment
  | [] => [f]
  | g :: t => if f.fragment_index ≤ g.fragment_index then f :: g :: t else g :: insertByIdx f t

/-- Sort fragments by fragment index (reassembly does not require ordered
arrival; the index lives in each fragment). -/
def sortByIdx : List Fragment → List Fragment
  | [] => []
  | f :: t => insertByIdx f (sortByIdx t)

/-- Modelled from the spec: reassemble a full fragment group into a
`Message`; may fail when the bytes do not parse (`Message::from_fragments`). -/
def Message.from_fragments (l : List Fragment) : Option Message :=
  Message.decode (((sortByIdx l).map Fragment.data).flatten)

/-- Modelled from the spec: commands from the controller to the leaf
(`common_structs::leaf::LeafCommand`). -/
inductive LeafCommand where
  | RemoveSender (node_id : NodeId)
  | AddSender (node_id : NodeId) (sender : Sender)
  | Kill
deriving DecidableEq, Repr

/-- Modelled from the spec: events from the leaf to the controller
(`common_structs::leaf::LeafEvent`). -/
inductive LeafEvent where
  | PacketSend (packet : Packet)
  | ControllerShortcut (packet : Packet)
  | MessageStartSend (start : NodeId) (session : Session) (dest : NodeId) (message : Message)
  | MessageFullySent (start : NodeId) (session : Session)
deriving DecidableEq, Repr

/-- Observable actions of the engine: a packet handed to a neighbor
endpoint, an event handed to the controller endpoint (each with the flag
telling whether the channel accepted it), a warning logged, or a
reassembled message dispatched to the protocol seam. -/
inductive Effect where
  | packetSent (endpoint : Sender) (packet : Packet) (ok : Bool)
  | controllerEvent (event : LeafEvent) (ok : Bool)
  | warned
  | dispatched (peer : NodeId) (message : Message) (session : Session)
deriving DecidableEq, Repr

/-- The channel environment: which endpoints refuse sends (a
`crossbeam_channel` send fails exactly when the channel is disconnected). -/
structure Env where
  closedSenders : List Sender
  controllerClosed : Bool
deriving DecidableEq, Repr

/-- Whether a send on the given endpoint succeeds in this environment. -/
def Env.sendOk (env : Env) (endpoint : Sender) : Bool :=
  !decide (endpoint ∈ env.closedSenders)

/-- Per node, the sender used to reach this node (`PacketSendLookup`). -/
abbrev PacketSendLookup := List (NodeId × Sender)

/-- Per node, the routing used to reach it (`NodePathLookup`). -/
abbrev NodePathLookup := List (NodeId × Routing)

/-- Per session id and fragment index, the packet sent (`PacketHistory`). -/
abbrev PacketHistory := List ((Session × FragmentIdx) × Packet)

/-- Per session id and node, the fragments received so far
(`PendingFragmentsLookup`). -/
abbrev PendingFragmentsLookup := List ((Session × NodeId) × List Fragment)

/-- The information required to send packets (`ServerSenders`). -/
structure ServerSenders where
  controller_send : Sender
  packet_send : PacketSendLookup
  session_id : Session
  node_path : NodePathLookup
  history : PacketHistory
deriving DecidableEq, Repr

/-- `ServerSenders::new`: session counter starts at 0, empty route table
and history. -/
def ServerSenders.new (controller_send : Sender) (packet_send : PacketSendLookup) :
    ServerSenders :=
  ⟨controller_send, packet_send, 0, [], []⟩

/-- The information required to receive (`ServerReceivers`): the pending
contents of the two inbound channels. -/
structure ServerReceivers where
  controller_recv : List LeafCommand
  packet_recv : List Packet
deriving DecidableEq, Repr

/-- Errors of `Server::prepare_node_send` (`PrepareNodeSendError`):
`UnknownNodeId` is the `Left` case, `UnknownNodeInfo` the `Right` case. -/
inductive PrepareNodeSendError where
  | UnknownNodeId (node_id : NodeId)
  | UnknownNodeInfo (node_id : NodeId)
deriving DecidableEq, Repr

/-- Information required to send a packet (`PreparedNodeSend`). -/
structure PreparedNodeSend where
  routing : Routing
  session : Session
  neighbor : Sender
deriving DecidableEq, Repr

/-- `Server::prepare_node_send`: resolve the stored route and the neighbor
endpoint for `to`; on success with `increment_session` the session counter
is incremented first (64-bit arithmetic) and the new value returned. -/
def prepare_node_send (senders : ServerSenders) (dest : NodeId) (increment_session : Bool) :
    Except PrepareNodeSendError (ServerSenders × PreparedNodeSend) :=
  match alookup senders.node_path dest with
  | some node_path =>
    match node_path.current_hop with
    | some neighbor_id =>
      match alookup senders.packet_send neighbor_id with
      | some channel =>
        let senders :=
          if increment_session then
            { senders with session_id := (senders.session_id + 1) % U64MOD }
          else senders
        .ok (senders, ⟨node_path, senders.session_id, channel⟩)
      | none => .error (.UnknownNodeId dest)
    | none => .error (.UnknownNodeInfo dest)
  | none => .error (.UnknownNodeInfo dest)

/-- Whether a packet kind is recorded in the send history: only
`MsgFragment`s (only they can be dropped). -/
def recordInHistory (pt : PacketType) : Bool :=
  match pt with
  | .MsgFragment _ => true
  | _ => false

/-- Whether a packet kind may fall back to the controller shortcut. -/
def useShortcut (pt : PacketType) : Bool :=
  match pt with
  | .Ack _ => true
  | .Nack _ => true
  | .FloodResponse _ => true
  | _ => false

/-- Result of `Server::send_packet_raw`: the updated history, the trace of
observable actions, and whether a send error is reported to the caller. -/
structure RawSendResult where
  history : PacketHistory
  effects : List Effect
  send_error : Bool
deriving DecidableEq, Repr

/-- `Server::send_packet_raw`: record resendable packets in the history,
notify the controller, send to the neighbor, and fall back to the
controller shortcut for eligible kinds when the neighbor send fails. -/
def send_packet_raw (env : Env) (dest : Sender) (_controller : Sender)
    (history : PacketHistory) (packet : Packet) : RawSendResult :=
  let history :=
    if recordInHistory packet.pack_type then
      ainsert history (packet.session_id, packet.get_fragment_index) packet
    else history
  let notifyOk := !env.controllerClosed
  let notifyEffects :=
    Effect.controllerEvent (.PacketSend packet) notifyOk ::
      (if notifyOk then [] else [Effect.warned])
  let sendOk := env.sendOk dest
  let sendEffect := Effect.packetSent dest packet sendOk
  if useShortcut packet.pack_type && !sendOk then
    let shortcutOk := !env.controllerClosed
    let shortcutEffects :=
      Effect.controllerEvent (.ControllerShortcut packet) shortcutOk ::
        (if shortcutOk then [] else [Effect.warned])
    ⟨history, notifyEffects ++ sendEffect :: shortcutEffects, !shortcutOk⟩
  else
    ⟨history, notifyEffects ++ [sendEffect], !sendOk⟩

/-- `Server::send_packet`: resolve the route via `prepare_node_send`
(allocating a session exactly when no fixed session is given), then send
through the raw path. -/
def send_packet (env : Env) (senders : ServerSenders) (dest : NodeId)
    (packet : PacketType) (fixed_session : Option Session) :
    Except PrepareNodeSendError (ServerSenders × List Effect × Bool) :=
  match prepare_node_send senders dest fixed_session.isNone with
  | .error e => .error e
  | .ok (senders, pns) =>
    let r := send_packet_raw env pns.neighbor senders.controller_send senders.history
      ⟨pns.routing, fixed_session.getD pns.session, packet⟩
    .ok ({ senders with history := r.history }, r.effects, r.send_error)

/-- One step of the fragment loop of `Server::send_message_raw`. -/
def sendFragmentStep (env : Env) (neighbor controller : Sender) (routing : Routing)
    (session : Session) (acc : PacketHistory × List Effect × List Bool)
    (fragment : Fragment) : PacketHistory × List Effect × List Bool :=
  let r := send_packet_raw env neighbor controller acc.1
    ⟨routing, session, .MsgFragment fragment⟩
  (r.history, acc.2.1 ++ r.effects, acc.2.2 ++ [r.send_error])

/-- `Server::send_message_raw`: resolve the route once, notify the
controller of message start, send every fragment on the same session and
route through the raw path, then notify message end. -/
def send_message_raw (env : Env) (start : NodeId) (senders : ServerSenders)
    (dest : NodeId) (message : Message) (fixed_session : Option Session) :
    Except PrepareNodeSendError (ServerSenders × List Effect × List Bool) :=
  match prepare_node_send senders dest fixed_session.isNone with
  | .error e => .error e
  | .ok (senders, pns) =>
    let session := fixed_session.getD pns.session
    let startOk := !env.controllerClosed
    let startEffects :=
      Effect.controllerEvent (.MessageStartSend start session dest message) startOk ::
        (if startOk then [] else [Effect.warned])
    let folded := message.into_fragments.foldl
      (sendFragmentStep env pns.neighbor senders.controller_send pns.routing session)
      (senders.history, startEffects, [])
    let endOk := !env.controllerClosed
    let endEffects :=
      Effect.controllerEvent (.MessageFullySent start session) endOk ::
        (if endOk then [] else [Effect.warned])
    .ok ({ senders with history := folded.1 }, folded.2.1 ++ endEffects, folded.2.2)

/-- `Server::send_message`: run `send_message_raw` and turn every error
into a warning. -/
def send_message (env : Env) (start : NodeId) (senders : ServerSenders)
    (dest : NodeId) (message : Message) (fixed_session : Option Session) :
    ServerSenders × List Effect :=
  match send_message_raw env start senders dest message fixed_session with
  | .error _ => (senders, [Effect.warned])
  | .ok (senders, effects, errors) =>
    (senders, effects ++ (errors.filter (· = true)).map (fun _ => Effect.warned))

/-- The protocol-independent server state (`Server<T>`), with the pending
channel contents standing for the receivers and the protocol seam left to
the effect trace. -/
structure Server where
  running : Bool
  id : NodeId
  senders : ServerSenders
  receivers : ServerReceivers
  pending_fragments : PendingFragmentsLookup
deriving DecidableEq, Repr

/-- `Server::create`. -/
def Server.create (id : NodeId) (controller_send : Sender)
    (controller_recv : List LeafCommand) (packet_recv : List Packet)
    (packet_send : PacketSendLookup) : Server :=
  ⟨true, id, ServerSenders.new controller_send packet_send,
    ⟨controller_recv, packet_recv⟩, []⟩

/-- The controller branch of `Server::update`: `RemoveSender` drops the
endpoint and, if one was dropped, its route; `AddSender` stores the
endpoint and a direct route `with_first_hop [node_id]`; `Kill` clears the
running flag. -/
def process_command (srv : Server) (cmd : LeafCommand) : Server :=
  match cmd with
  | .RemoveSender node_id =>
    let had := (alookup srv.senders.packet_send node_id).isSome
    let packet_send := aerase srv.senders.packet_send node_id
    let node_path :=
      if had then aerase srv.senders.node_path node_id else srv.senders.node_path
    { srv with senders := { srv.senders with packet_send, node_path } }
  | .AddSender node_id sender =>
    let packet_send := ainsert srv.senders.packet_send node_id sender
    let route := Routing.with_first_hop [node_id]
    let node_path := ainsert srv.senders.node_path node_id route
    { srv with senders := { srv.senders with packet_send, node_path } }
  | .Kill => { srv with running := false }

/-- `Server::on_fragment`: validate source and destination, learn the
reverse path, acknowledge, buffer, and flush a complete group to the
protocol seam. -/
def on_fragment (env : Env) (srv : Server) (routing : Routing)
    (session_id : Session) (fragment : Fragment) : Server × List Effect :=
  match routing.source with
  | some node_id =>
    if routing.destination ≠ some srv.id then
      match send_packet env srv.senders node_id
          (.Nack ⟨fragment.fragment_index, .UnexpectedRecipient srv.id⟩)
          (some session_id) with
      | .error _ => (srv, [Effect.warned])
      | .ok (senders, effects, _) => ({ srv with senders }, effects)
    else
      let node_path := routing.get_reversed.increase_hop_index
      let srv := { srv with senders :=
        { srv.senders with node_path := ainsert srv.senders.node_path node_id node_path } }
      let ackResult :=
        match send_packet env srv.senders node_id (.Ack ⟨fragment.fragment_index⟩)
            (some session_id) with
        | .error _ => (srv, [Effect.warned])
        | .ok (senders, effects, _) => ({ srv with senders }, effects)
      let srv := ackResult.1
      let ackEffects := ackResult.2
      let key := (session_id, node_id)
      let fragments := ((alookup srv.pending_fragments key).getD []) ++ [fragment]
      if fragments.length = fragment.total_n_fragments then
        let srv := { srv with pending_fragments := aerase srv.pending_fragments key }
        match Message.from_fragments fragments with
        | some message => (srv, ackEffects ++ [Effect.dispatched node_id message session_id])
        | none => (srv, ackEffects ++ [Effect.warned])
      else
        ({ srv with pending_fragments := ainsert srv.pending_fragments key fragments },
          ackEffects)
  | none => (srv, [Effect.warned])

/-- `Server::on_flood_request`: stamp self into the trace, store the
reversed trace as the route to the initiator (appending the initiator when
the trace omitted it), and send the flood response on a fresh session. -/
def on_flood_request (env : Env) (srv : Server) (req : FloodRequest) :
    Server × List Effect :=
  let req := { req with path_trace := req.path_trace ++ [(srv.id, NodeType.Server)] }
  let path := Routing.with_first_hop ((req.path_trace.map Prod.fst).reverse)
  let path :=
    match path.destination with
    | some destination =>
      if destination ≠ req.initiator_id then path.append_hop req.initiator_id else path
    | none => path
  let srv := { srv with senders :=
    { srv.senders with node_path := ainsert srv.senders.node_path req.initiator_id path } }
  match send_packet env srv.senders req.initiator_id
      (.FloodResponse ⟨req.flood_id, req.path_trace⟩) none with
  | .error _ => (srv, [Effect.warned])
  | .ok (senders, effects, _) => ({ srv with senders }, effects)

/-- `Server::on_nack`: on a `Dropped` nack, look up the send history and
re-send the stored packet verbatim through the raw path; everything else
is only logged. -/
def on_nack (env : Env) (srv : Server) (session_id : Session) (nack : Nack) :
    Server × List Effect :=
  match nack.nack_type with
  | .Dropped =>
    match alookup srv.senders.history (session_id, nack.fragment_index) with
    | some resend_packet =>
      match resend_packet.routing_header.current_hop with
      | some neighbor_id =>
        match alookup srv.senders.packet_send neighbor_id with
        | some channel =>
          let r := send_packet_raw env channel srv.senders.controller_send
            srv.senders.history resend_packet
          ({ srv with senders := { srv.senders with history := r.history } }, r.effects)
        | none => (srv, [Effect.warned])
      | none => (srv, [Effect.warned])
    | none => (srv, [Effect.warned])
  | _ => (srv, [Effect.warned])

/-- The packet branch of `Server::update`: dispatch on the packet kind;
inbound `Ack`s are ignored and unhandled kinds are logged. -/
def process_packet (env : Env) (srv : Server) (packet : Packet) : Server × List Effect :=
  match packet.pack_type with
  | .MsgFragment fragment => on_fragment env srv packet.routing_header packet.session_id fragment
  | .FloodRequest req => on_flood_request env srv req
  | .Nack nack => on_nack env srv packet.session_id nack
  | .Ack _ => (srv, [])
  | .FloodResponse _ => (srv, [Effect.warned])

/-- Modelled from the spec: `Server::update`, one step of the biased event
loop.  `select_biased!` lists the controller channel first, so a pending
controller command pre-empts pending packets; exactly one branch fires. -/
def update (env : Env) (srv : Server) : Server × List Effect :=
  match srv.receivers.controller_recv with
  | cmd :: rest =>
    (process_command { srv with receivers := { srv.receivers with controller_recv := rest } } cmd,
      [])
  | [] =>
    match srv.receivers.packet_recv with
    | packet :: rest =>
      process_packet env { srv with receivers := { srv.receivers with packet_recv := rest } } packet
    | [] => (srv, [])

/-- The chat protocol state (`ChatServer`): the registered clients, with
the `HashSet` modelled as a duplicate-free list. -/
structure ChatServer where
  connected_clients : List NodeId
deriving DecidableEq, Repr

/-- Set insertion on the client list (`HashSet::insert`). -/
def insertClient (client : NodeId) (l : List NodeId) : List NodeId :=
  if client ∈ l then l else l ++ [client]

/-- One step of the registration broadcast loop of
`ChatServer::on_message`. -/
def broadcastStep (env : Env) (server : NodeId) (message : Message)
    (acc : ServerSenders × List Effect) (client : NodeId) : ServerSenders × List Effect :=
  let r := send_message env server acc.1 client message none
  (r.1, acc.2 ++ r.2)

/-- `ChatServer::on_message`: the chat protocol seam. -/
def ChatServer.on_message (env : Env) (chat : ChatServer) (server : NodeId)
    (senders : ServerSenders) (client : NodeId) (message : Message)
    (session_id : Session) : ChatServer × ServerSenders × List Effect :=
  match message with
  | .ReqServerType =>
    let r := send_message env server senders client (.RespServerType .Chat) (some session_id)
    (chat, r)
  | .ReqChatRegistration =>
    let chat := { chat with connected_clients := insertClient client chat.connected_clients }
    let r := chat.connected_clients.foldl
      (broadcastStep env server (.RespClientList chat.connected_clients)) (senders, [])
    (chat, r)
  | .ReqChatClients =>
    let r := send_message env server senders client
      (.RespClientList chat.connected_clients) (some session_id)
    (chat, r)
  | .ReqChatSend dest chat_msg =>
    if dest ∉ chat.connected_clients then
      let r := send_message env server senders client .ErrNotExistentClient (some session_id)
      (chat, r)
    else
      let r := send_message env server senders dest (.RespChatFrom client chat_msg) none
      (chat, r)
  | _ =>
    let r := send_message env server senders client .ErrUnsupportedRequestType (some session_id)
    (chat, r)

/-- The packets handed to neighbor endpoints within a trace, with their
endpoints, in order. -/
def sentPackets (effects : List Effect) : List (Sender × Packet) :=
  effects.filterMap fun e =>
    match e with
    | .packetSent endpoint packet _ => some (endpoint, packet)
    | _ => none

/-- Whether an effect carries an `Ack` packet in any way (neighbor send,
controller notification or shortcut). -/
def emitsAck (e : Effect) : Bool :=
  match e with
  | .packetSent _ ⟨_, _, .Ack _⟩ _ => true
  | .controllerEvent (.PacketSend ⟨_, _, .Ack _⟩) _ => true
  | .controllerEvent (.ControllerShortcut ⟨_, _, .Ack _⟩) _ => true
  | _ => false

/-- Whether an effect is the controller-shortcut event for some packet. -/
def isShortcutEvent (e : Effect) : Bool :=
  match e with
  | .controllerEvent (.ControllerShortcut _) _ => true
  | _ => false

/-- Whether a packet is an `Ack` packet. -/
def isAckPacket (p : Packet) : Bool :=
  match p.pack_type with
  | .Ack _ => true
  | _ => false

theorem alookup_ainsert_self {κ α : Type} [DecidableEq κ] (l : List (κ × α)) (k : κ) (v : α)
    (h : alookup l k = some v) : ainsert l k v = l := by
  induction l with
  | nil => simp [alookup] at h
  | cons hd t ih =>
    obtain ⟨k', v'⟩ := hd
    by_cases hk : k = k'
    · subst hk
      simp [alookup] at h
      simp [ainsert, h]
    · simp [alookup, hk] at h
      simp [ainsert, hk, ih h]

theorem alookup_ainsert {κ α : Type} [DecidableEq κ] (l : List (κ × α)) (k : κ) (v : α) :
    alookup (ainsert l k v) k = some v := by
  induction l with
  | nil => simp [ainsert, alookup]
  | cons hd t ih =>
    obtain ⟨k', v'⟩ := hd
    by_cases hk : k = k' <;> simp [ainsert, alookup, hk, ih]

theorem alookup_aerase {κ α : Type} [DecidableEq κ] (l : List (κ × α)) (k : κ) :
    alookup (aerase l k) k = none := by
  induction l with
  | nil => simp [aerase, alookup]
  | cons hd t ih =>
    obtain ⟨k', v'⟩ := hd
    by_cases hk : k = k'
    · subst hk
      simpa [aerase] using ih
    · simp [aerase, alookup, hk, ih]

theorem prepare_node_send_ok (senders : ServerSenders) (dest : NodeId) (b : Bool)
    (r : Routing) (nb : NodeId) (ch : Sender)
    (h1 : alookup senders.node_path dest = some r) (h2 : r.current_hop = some nb)
    (h3 : alookup senders.packet_send nb = some ch) :
    prepare_node_send senders dest b =
      .ok (if b then { senders with session_id := (senders.session_id + 1) % U64MOD }
             else senders,
        ⟨r, if b then (senders.session_id + 1) % U64MOD else senders.session_id, ch⟩) := by
  cases b <;> simp [prepare_node_send, h1, h2, h3]

theorem prepare_node_send_preserves (senders : ServerSenders) (dest : NodeId) (b : Bool)
    (s' : ServerSenders) (pns : PreparedNodeSend)
    (h : prepare_node_send senders dest b = .ok (s', pns)) :
    s'.controller_send = senders.controller_send ∧ s'.packet_send = senders.packet_send ∧
      s'.node_path = senders.node_path ∧ s'.history = senders.history := by
  unfold prepare_node_send at h
  repeat split at h
  all_goals simp_all
  all_goals (obtain ⟨hs, -⟩ := h; subst hs; simp)

theorem send_packet_raw_history_of_not_record (env : Env) (d c : Sender)
    (h : PacketHistory) (p : Packet) (hrec : recordInHistory p.pack_type = false) :
    (send_packet_raw env d c h p).history = h := by
  unfold send_packet_raw
  simp only [hrec, Bool.false_eq_true, if_false]
  split <;> rfl

theorem sentPackets_send_packet_raw (env : Env) (d c : Sender)
    (h : PacketHistory) (p : Packet) :
    sentPackets (send_packet_raw env d c h p).effects = [(d, p)] := by
  unfold send_packet_raw
  by_cases hrec : recordInHistory p.pack_type <;>
    by_cases hu : useShortcut p.pack_type <;>
      by_cases hc : env.controllerClosed <;>
        by_cases hs : env.sendOk d <;>
          simp [hrec, hu, hc, hs, sentPackets]

theorem mem_send_packet_raw_effects (env : Env) (d c : Sender)
    (h : PacketHistory) (p : Packet) (e : Effect)
    (he : e ∈ (send_packet_raw env d c h p).effects) :
    e = .controllerEvent (.PacketSend p) (!env.controllerClosed) ∨ e = .warned ∨
      e = .packetSent d p (env.sendOk d) ∨
      e = .controllerEvent (.ControllerShortcut p) (!env.controllerClosed) := by
  unfold send_packet_raw at he
  by_cases hrec : recordInHistory p.pack_type <;>
    by_cases hu : useShortcut p.pack_type <;>
      by_cases hc : env.controllerClosed <;>
        by_cases hs : env.sendOk d <;>
          simp [hrec, hu, hc, hs] at he ⊢ <;> tauto

theorem prepare_node_send_false_eq (senders : ServerSenders) (dest : NodeId)
    (s' : ServerSenders) (pns : PreparedNodeSend)
    (h : prepare_node_send senders dest false = .ok (s', pns)) : s' = senders := by
  unfold prepare_node_send at h
  repeat split at h
  all_goals simp_all

theorem send_packet_fixed (env : Env) (senders : ServerSenders) (dest : NodeId)
    (pt : PacketType) (s : Session) (r : Routing) (nb : NodeId) (ch : Sender)
    (h1 : alookup senders.node_path dest = some r) (h2 : r.current_hop = some nb)
    (h3 : alookup senders.packet_send nb = some ch) :
    send_packet env senders dest pt (some s) =
      .ok ({ senders with history :=
          (send_packet_raw env ch senders.controller_send senders.history ⟨r, s, pt⟩).history },
        (send_packet_raw env ch senders.controller_send senders.history ⟨r, s, pt⟩).effects,
        (send_packet_raw env ch senders.controller_send senders.history ⟨r, s, pt⟩).send_error) := by
  unfold send_packet
  rw [show (some s).isNone = false from rfl,
    prepare_node_send_ok senders dest false r nb ch h1 h2 h3]
  simp

theorem send_packet_alloc (env : Env) (senders : ServerSenders) (dest : NodeId)
    (pt : PacketType) (r : Routing) (nb : NodeId) (ch : Sender)
    (h1 : alookup senders.node_path dest = some r) (h2 : r.current_hop = some nb)
    (h3 : alookup senders.packet_send nb = some ch) :
    send_packet env senders dest pt none =
      (let senders' : ServerSenders :=
        { senders with session_id := (senders.session_id + 1) % U64MOD }
       let raw := send_packet_raw env ch senders'.controller_send senders'.history
         ⟨r, (senders.session_id + 1) % U64MOD, pt⟩
       .ok ({ senders' with history := raw.history }, raw.effects, raw.send_error)) := by
  unfold send_packet
  rw [show (none : Option Session).isNone = true from rfl,
    prepare_node_send_ok senders dest true r nb ch h1 h2 h3]
  simp

/-- A packet kind that is recorded never uses the shortcut. -/
theorem useShortcut_of_record (pt : PacketType) (h : recordInHistory pt = true) :
    useShortcut pt = false := by
  cases pt <;> simp_all [recordInHistory, useShortcut]

theorem process_command_receivers (srv : Server) (cmd : LeafCommand) :
    (process_command srv cmd).receivers = srv.receivers := by
  cases cmd <;> rfl

theorem on_fragment_receivers (env : Env) (srv : Server) (routing : Routing)
    (session_id : Session) (fragment : Fragment) :
    (on_fragment env srv routing session_id fragment).1.receivers = srv.receivers := by
  unfold on_fragment
  repeat' first | rfl | split | dsimp only

theorem on_flood_request_receivers (env : Env) (srv : Server) (req : FloodRequest) :
    (on_flood_request env srv req).1.receivers = srv.receivers := by
  unfold on_flood_request
  repeat' first | rfl | split | dsimp only

theorem on_nack_receivers (env : Env) (srv : Server) (session_id : Session) (nack : Nack) :
    (on_nack env srv session_id nack).1.receivers = srv.receivers := by
  unfold on_nack
  repeat' first | rfl | split

theorem process_packet_receivers (env : Env) (srv : Server) (packet : Packet) :
    (process_packet env srv packet).1.receivers = srv.receivers := by
  unfold process_packet
  split
  · rw [on_fragment_receivers]
  · rw [on_flood_request_receivers]
  · rw [on_nack_receivers]
  · rfl
  · rfl

/-- C1: after `LeafCommand::AddSender(1, endpoint 7)` on a fresh server the
neighbor map does contain the endpoint, but the stored direct route is
`with_first_hop [1]`, whose current hop is `none`, so a subsequent send to
node 1 fails with `UnknownNodeInfo` instead of resolving to the neighbor
endpoint: the claim's routing half fails on the code. -/
theorem C1_add_sender_route_unusable :
    alookup (update ⟨[], false⟩ (Server.create 0 99 [.AddSender 1 7] [] [])).1.senders.packet_send 1
        = some 7 ∧
    alookup (update ⟨[], false⟩ (Server.create 0 99 [.AddSender 1 7] [] [])).1.senders.node_path 1
        = some (Routing.with_first_hop [1]) ∧
    (Routing.with_first_hop [1]).current_hop = none ∧
    send_packet ⟨[], false⟩
        (update ⟨[], false⟩ (Server.create 0 99 [.AddSender 1 7] [] [])).1.senders 1
        (.Ack ⟨0⟩) none
      = .error (.UnknownNodeInfo 1) := by
  exact ⟨rfl, rfl, rfl, rfl⟩

/-- C6: in `send_packet_raw`, a failed neighbor send of a shortcut-eligible
packet (`Ack`, `Nack`, `FloodResponse`) emits a `ControllerShortcut` event
and reports an error exactly when the shortcut send fails too, while a
`MsgFragment` never emits a shortcut event and reports the neighbor send
error directly. -/
theorem C6_shortcut_policy (env : Env) (d c : Sender) (history : PacketHistory)
    (p : Packet) :
    (useShortcut p.pack_type = true → env.sendOk d = false →
      Effect.controllerEvent (.ControllerShortcut p) (!env.controllerClosed) ∈
          (send_packet_raw env d c history p).effects ∧
        (send_packet_raw env d c history p).send_error = env.controllerClosed) ∧
    (recordInHistory p.pack_type = true →
      (∀ e ∈ (send_packet_raw env d c history p).effects, isShortcutEvent e = false) ∧
        (send_packet_raw env d c history p).send_error = !env.sendOk d) := by
  constructor
  · intro hu hs
    unfold send_packet_raw
    by_cases hc : env.controllerClosed <;>
      by_cases hrec : recordInHistory p.pack_type <;>
        simp [hu, hs, hc, hrec]
  · intro hrec
    have hu := useShortcut_of_record p.pack_type hrec
    unfold send_packet_raw
    by_cases hc : env.controllerClosed <;>
      by_cases hs : env.sendOk d <;>
        simp [hu, hs, hc, hrec, isShortcutEvent]

/-- Witness for C6 at concrete inputs: a closed Ack packet send on a closed
neighbor channel falls back to the shortcut and masks the error; a
MsgFragment on the same closed channel reports the error and never
shortcuts. -/
theorem C6_shortcut_policy_witness :
    (Effect.controllerEvent
        (.ControllerShortcut ⟨⟨1, [0, 5]⟩, 3, .Ack ⟨0⟩⟩) true ∈
          (send_packet_raw ⟨[5], false⟩ 5 9 [] ⟨⟨1, [0, 5]⟩, 3, .Ack ⟨0⟩⟩).effects ∧
      (send_packet_raw ⟨[5], false⟩ 5 9 [] ⟨⟨1, [0, 5]⟩, 3, .Ack ⟨0⟩⟩).send_error = false) ∧
    ((∀ e ∈ (send_packet_raw ⟨[5], false⟩ 5 9 []
          ⟨⟨1, [0, 5]⟩, 3, .MsgFragment ⟨0, 1, [2]⟩⟩).effects, isShortcutEvent e = false) ∧
      (send_packet_raw ⟨[5], false⟩ 5 9 []
          ⟨⟨1, [0, 5]⟩, 3, .MsgFragment ⟨0, 1, [2]⟩⟩).send_error = !(⟨[5], false⟩ : Env).sendOk 5) := by
  exact ⟨(C6_shortcut_policy ⟨[5], false⟩ 5 9 [] ⟨⟨1, [0, 5]⟩, 3, .Ack ⟨0⟩⟩).1
      (by decide) (by decide),
    (C6_shortcut_policy ⟨[5], false⟩ 5 9 [] ⟨⟨1, [0, 5]⟩, 3, .MsgFragment ⟨0, 1, [2]⟩⟩).2
      (by decide)⟩

/-- C7: one `update` step processes exactly one branch; a pending
controller command is processed first whatever the packet queue holds (the
packet queue is untouched), and a packet is processed only when the
controller queue is empty. -/
theorem C7_update_biased (env : Env) (srv : Server) :
    (∀ cmd rest, srv.receivers.controller_recv = cmd :: rest →
      update env srv =
          (process_command
            { srv with receivers := { srv.receivers with controller_recv := rest } } cmd, []) ∧
        (update env srv).1.receivers.packet_recv = srv.receivers.packet_recv) ∧
    (∀ p rest, srv.receivers.controller_recv = [] → srv.receivers.packet_recv = p :: rest →
      update env srv =
          process_packet env
            { srv with receivers := { srv.receivers with packet_recv := rest } } p ∧
        (update env srv).1.receivers.controller_recv = []) := by
  constructor
  · intro cmd rest h
    have hu : update env srv =
        (process_command
          { srv with receivers := { srv.receivers with controller_recv := rest } } cmd, []) := by
      unfold update
      rw [h]
    refine ⟨hu, ?_⟩
    rw [hu]
    rw [process_command_receivers]
  · intro p rest h1 h2
    have hu : update env srv =
        process_packet env
          { srv with receivers := { srv.receivers with packet_recv := rest } } p := by
      unfold update
      rw [h1, h2]
    refine ⟨hu, ?_⟩
    rw [hu]
    rw [process_packet_receivers]
    exact h1

/-- Witness for C7 at a concrete state where a controller command and a
packet are both ready: the command is processed, the packet stays queued;
and at a state with only a packet ready, the packet branch fires. -/
theorem C7_update_biased_witness :
    (update ⟨[], false⟩
        ⟨true, 0, ServerSenders.new 99 [], ⟨[.Kill], [⟨⟨0, []⟩, 1, .Ack ⟨0⟩⟩]⟩, []⟩ =
          (process_command
            ⟨true, 0, ServerSenders.new 99 [], ⟨[], [⟨⟨0, []⟩, 1, .Ack ⟨0⟩⟩]⟩, []⟩ .Kill, []) ∧
      (update ⟨[], false⟩
        ⟨true, 0, ServerSenders.new 99 [], ⟨[.Kill], [⟨⟨0, []⟩, 1, .Ack ⟨0⟩⟩]⟩, []⟩).1.receivers.packet_recv =
        [⟨⟨0, []⟩, 1, .Ack ⟨0⟩⟩]) ∧
    update ⟨[], false⟩ ⟨true, 0, ServerSenders.new 99 [], ⟨[], [⟨⟨0, []⟩, 1, .Ack ⟨0⟩⟩]⟩, []⟩ =
      process_packet ⟨[], false⟩
        ⟨true, 0, ServerSenders.new 99 [], ⟨[], []⟩, []⟩ ⟨⟨0, []⟩, 1, .Ack ⟨0⟩⟩ := by
  refine ⟨(C7_update_biased ⟨[], false⟩ _).1 .Kill _ rfl, ?_⟩
  exact ((C7_update_biased ⟨[], false⟩ _).2 ⟨⟨0, []⟩, 1, .Ack ⟨0⟩⟩ [] rfl rfl).1

/-- C8: the session counter starts at 0 so the first allocation yields 1
and 0 is never an allocated value; a successful allocating resolution
strictly increases the counter (below the 64-bit wrap bound); and a send
with a fixed session uses that id verbatim on the wire and leaves the
counter unchanged. -/
theorem C8_session_counter (env : Env) (senders : ServerSenders) (dest : NodeId)
    (r : Routing) (nb : NodeId) (ch : Sender) (pt : PacketType) (s : Session)
    (h1 : alookup senders.node_path dest = some r) (h2 : r.current_hop = some nb)
    (h3 : alookup senders.packet_send nb = some ch)
    (hlt : senders.session_id + 1 < U64MOD) :
    (∀ c ps, (ServerSenders.new c ps).session_id = 0) ∧
    prepare_node_send senders dest true =
      .ok ({ senders with session_id := senders.session_id + 1 },
        ⟨r, senders.session_id + 1, ch⟩) ∧
    senders.session_id < senders.session_id + 1 ∧ senders.session_id + 1 ≠ 0 ∧
    (∃ hist effects err,
      send_packet env senders dest pt (some s) =
          .ok ({ senders with history := hist }, effects, err) ∧
        sentPackets effects = [(ch, ⟨r, s, pt⟩)] ∧
        ({ senders with history := hist } : ServerSenders).session_id = senders.session_id) := by
  refine ⟨fun c ps => rfl, ?_, Nat.lt_succ_self _, Nat.succ_ne_zero _, ?_⟩
  · rw [prepare_node_send_ok senders dest true r nb ch h1 h2 h3]
    simp [Nat.mod_eq_of_lt hlt]
  · refine ⟨(send_packet_raw env ch senders.controller_send senders.history ⟨r, s, pt⟩).history,
      (send_packet_raw env ch senders.controller_send senders.history ⟨r, s, pt⟩).effects,
      (send_packet_raw env ch senders.controller_send senders.history ⟨r, s, pt⟩).send_error,
      send_packet_fixed env senders dest pt s r nb ch h1 h2 h3,
      sentPackets_send_packet_raw env ch senders.controller_send senders.history ⟨r, s, pt⟩,
      rfl⟩

/-- Witness for C8 at a concrete state with counter 0 and a stored route:
the first allocation yields session 1, and a fixed-session send with id 5
puts 5 on the wire and keeps the counter at 0. -/
theorem C8_session_counter_witness :
    prepare_node_send ⟨99, [(0, 50)], 0, [(0, ⟨1, [0, 0]⟩)], []⟩ 0 true =
        .ok (⟨99, [(0, 50)], 1, [(0, ⟨1, [0, 0]⟩)], []⟩, ⟨⟨1, [0, 0]⟩, 1, 50⟩) ∧
    (∃ hist effects err,
      send_packet ⟨[], false⟩ ⟨99, [(0, 50)], 0, [(0, ⟨1, [0, 0]⟩)], []⟩ 0 (.Ack ⟨0⟩) (some 5) =
          .ok ({ (⟨99, [(0, 50)], 0, [(0, ⟨1, [0, 0]⟩)], []⟩ : ServerSenders) with history := hist },
            effects, err) ∧
        sentPackets effects = [(50, ⟨⟨1, [0, 0]⟩, 5, .Ack ⟨0⟩⟩)] ∧
        ({ (⟨99, [(0, 50)], 0, [(0, ⟨1, [0, 0]⟩)], []⟩ : ServerSenders) with
            history := hist } : ServerSenders).session_id = 0) := by
  have h := C8_session_counter ⟨[], false⟩ ⟨99, [(0, 50)], 0, [(0, ⟨1, [0, 0]⟩)], []⟩ 0
    ⟨1, [0, 0]⟩ 0 50 (.Ack ⟨0⟩) 5 (by decide) (by decide) (by decide)
    (by norm_num [U64MOD])
  exact ⟨h.2.1, h.2.2.2.2⟩

theorem send_packet_raw_history (env : Env) (d c : Sender) (h : PacketHistory)
    (p : Packet) :
    (send_packet_raw env d c h p).history =
      if recordInHistory p.pack_type then
        ainsert h (p.session_id, p.get_fragment_index) p
      else h := by
  unfold send_packet_raw
  split <;> (dsimp only; split <;> rfl)

/-- Counterexample for C2 as stated: a send history holding an entry for
(777, 2) whose packet's current hop (node 9) has no registered neighbor
endpoint.  On `Nack{2, Dropped}` the engine only logs; no packet is
re-sent although the history has an entry. -/
theorem C2_dropped_resend_counterexample :
    on_nack ⟨[], false⟩
        ⟨true, 0, ⟨99, [], 0, [], [((777, 2), ⟨⟨1, [0, 9]⟩, 777, .MsgFragment ⟨2, 7, [1]⟩⟩)]⟩,
          ⟨[], []⟩, []⟩ 777 ⟨2, .Dropped⟩ =
      (⟨true, 0, ⟨99, [], 0, [], [((777, 2), ⟨⟨1, [0, 9]⟩, 777, .MsgFragment ⟨2, 7, [1]⟩⟩)]⟩,
          ⟨[], []⟩, []⟩, [Effect.warned]) ∧
    sentPackets [Effect.warned] = [] := by
  exact ⟨rfl, rfl⟩

/-- C2 (amended): on `Nack{i, Dropped}` for session `S`, with no history
entry for `(S, i)` the engine only logs and sends nothing; with an entry
recorded by the send path (key matching the packet) whose current hop
resolves to a known neighbor endpoint, the stored packet is re-sent
verbatim to that endpoint and the whole engine state — session counter and
history included — is unchanged. -/
theorem C2_dropped_resend (env : Env) (srv : Server) (S : Session) (i : FragmentIdx) :
    (alookup srv.senders.history (S, i) = none →
      on_nack env srv S ⟨i, .Dropped⟩ = (srv, [Effect.warned])) ∧
    (∀ p nb ch, alookup srv.senders.history (S, i) = some p →
      p.routing_header.current_hop = some nb →
      alookup srv.senders.packet_send nb = some ch →
      p.session_id = S → p.get_fragment_index = i →
      (on_nack env srv S ⟨i, .Dropped⟩).1 = srv ∧
        sentPackets (on_nack env srv S ⟨i, .Dropped⟩).2 = [(ch, p)]) := by
  constructor
  · intro h
    unfold on_nack
    simp [h]
  · intro p nb ch hp hnb hch hs hi
    unfold on_nack
    simp only [hp, hnb, hch]
    constructor
    · have hh : (send_packet_raw env ch srv.senders.controller_send srv.senders.history p).history
          = srv.senders.history := by
        rw [send_packet_raw_history, hs, hi]
        split
        · exact alookup_ainsert_self srv.senders.history (S, i) p hp
        · rfl
      simp [hh]
    · exact sentPackets_send_packet_raw env ch srv.senders.controller_send srv.senders.history p

/-- Witness for C2 at concrete inputs: with no entry the engine only logs;
with a properly recorded entry whose hop resolves, exactly the stored
packet is re-sent and the state is untouched. -/
theorem C2_dropped_resend_witness :
    on_nack ⟨[], false⟩ ⟨true, 0, ⟨99, [], 0, [], []⟩, ⟨[], []⟩, []⟩ 1 ⟨0, .Dropped⟩ =
        (⟨true, 0, ⟨99, [], 0, [], []⟩, ⟨[], []⟩, []⟩, [Effect.warned]) ∧
    (on_nack ⟨[], false⟩
        ⟨true, 0, ⟨99, [(9, 50)], 3, [], [((777, 2), ⟨⟨1, [0, 9]⟩, 777, .MsgFragment ⟨2, 7, [1]⟩⟩)]⟩,
          ⟨[], []⟩, []⟩ 777 ⟨2, .Dropped⟩).1 =
        ⟨true, 0, ⟨99, [(9, 50)], 3, [], [((777, 2), ⟨⟨1, [0, 9]⟩, 777, .MsgFragment ⟨2, 7, [1]⟩⟩)]⟩,
          ⟨[], []⟩, []⟩ ∧
    sentPackets (on_nack ⟨[], false⟩
        ⟨true, 0, ⟨99, [(9, 50)], 3, [], [((777, 2), ⟨⟨1, [0, 9]⟩, 777, .MsgFragment ⟨2, 7, [1]⟩⟩)]⟩,
          ⟨[], []⟩, []⟩ 777 ⟨2, .Dropped⟩).2 =
      [(50, ⟨⟨1, [0, 9]⟩, 777, .MsgFragment ⟨2, 7, [1]⟩⟩)] := by
  refine ⟨(C2_dropped_resend ⟨[], false⟩ ⟨true, 0, ⟨99, [], 0, [], []⟩, ⟨[], []⟩, []⟩ 1 0).1 rfl,
    ?_, ?_⟩
  · exact ((C2_dropped_resend ⟨[], false⟩
      ⟨true, 0, ⟨99, [(9, 50)], 3, [], [((777, 2), ⟨⟨1, [0, 9]⟩, 777, .MsgFragment ⟨2, 7, [1]⟩⟩)]⟩,
        ⟨[], []⟩, []⟩ 777 2).2
      ⟨⟨1, [0, 9]⟩, 777, .MsgFragment ⟨2, 7, [1]⟩⟩ 9 50 rfl rfl rfl rfl rfl).1
  · exact ((C2_dropped_resend ⟨[], false⟩
      ⟨true, 0, ⟨99, [(9, 50)], 3, [], [((777, 2), ⟨⟨1, [0, 9]⟩, 777, .MsgFragment ⟨2, 7, [1]⟩⟩)]⟩,
        ⟨[], []⟩, []⟩ 777 2).2
      ⟨⟨1, [0, 9]⟩, 777, .MsgFragment ⟨2, 7, [1]⟩⟩ 9 50 rfl rfl rfl rfl rfl).2

theorem send_packet_fixed_state (env : Env) (senders : ServerSenders) (dest : NodeId)
    (pt : PacketType) (s : Session) (out : ServerSenders × List Effect × Bool)
    (hrec : recordInHistory pt = false)
    (h : send_packet env senders dest pt (some s) = .ok out) : out.1 = senders := by
  unfold send_packet at h
  cases hp : prepare_node_send senders dest (some s).isNone with
  | error e => rw [hp] at h; cases h
  | ok x =>
    obtain ⟨s', pns⟩ := x
    rw [hp] at h
    have hse : s' = senders :=
      prepare_node_send_false_eq senders dest s' pns (by simpa using hp)
    subst hse
    simp only [Except.ok.injEq] at h
    rw [← h]
    simp [send_packet_raw_history, hrec]

theorem mem_send_packet_effects (env : Env) (senders : ServerSenders) (dest : NodeId)
    (pt : PacketType) (fs : Option Session) (out : ServerSenders × List Effect × Bool)
    (e : Effect) (h : send_packet env senders dest pt fs = .ok out) (he : e ∈ out.2.1) :
    (∃ d p ok, (e = Effect.packetSent d p ok ∨ e = .controllerEvent (.PacketSend p) ok ∨
        e = .controllerEvent (.ControllerShortcut p) ok) ∧ p.pack_type = pt) ∨
      e = Effect.warned := by
  unfold send_packet at h
  cases hp : prepare_node_send senders dest fs.isNone with
  | error err => rw [hp] at h; cases h
  | ok x =>
    obtain ⟨s', pns⟩ := x
    rw [hp] at h
    simp only [Except.ok.injEq] at h
    rw [← h] at he
    have := mem_send_packet_raw_effects env pns.neighbor s'.controller_send s'.history
      ⟨pns.routing, fs.getD pns.session, pt⟩ e he
    rcases this with h1 | h1 | h1 | h1
    · exact .inl ⟨pns.neighbor, _, _, .inr (.inl h1), rfl⟩
    · exact .inr h1
    · exact .inl ⟨pns.neighbor, _, _, .inl h1, rfl⟩
    · exact .inl ⟨pns.neighbor, _, _, .inr (.inr h1), rfl⟩

theorem emitsAck_shapes (p : Packet) (d : Sender) (ok : Bool) :
    emitsAck (.packetSent d p ok) = isAckPacket p ∧
    emitsAck (.controllerEvent (.PacketSend p) ok) = isAckPacket p ∧
    emitsAck (.controllerEvent (.ControllerShortcut p) ok) = isAckPacket p := by
  obtain ⟨r, s, pt⟩ := p
  cases pt <;> exact ⟨rfl, rfl, rfl⟩

/-- Counterexample for C5 as stated: a fresh server (no stored routes)
receives a fragment with source 1 and destination 2 ≠ self; the engine
only logs — no `Nack{UnexpectedRecipient}` is emitted at all, so "exactly
one Nack is emitted" fails without a resolvable route to the source. -/
theorem C5_unexpected_recipient_counterexample :
    on_fragment ⟨[], false⟩ (Server.create 0 99 [] [] []) ⟨1, [1, 2]⟩ 5 ⟨0, 1, [2]⟩ =
        (Server.create 0 99 [] [] [], [Effect.warned]) ∧
    sentPackets [Effect.warned] = [] := by
  exact ⟨rfl, rfl⟩

/-- C5 (amended): an inbound `MsgFragment` whose route has a source but a
destination that is absent or not self mutates no engine state and emits
no Ack; when the routing table resolves the source to a known neighbor
endpoint, exactly one packet goes out: the
`Nack{fragment_index, UnexpectedRecipient(self)}` on the same session,
routed on the stored route to the source. -/
theorem C5_unexpected_recipient (env : Env) (srv : Server) (routing : Routing)
    (S : Session) (frag : Fragment) (src : NodeId)
    (hsrc : routing.source = some src)
    (hdst : routing.destination ≠ some srv.id) :
    (on_fragment env srv routing S frag).1 = srv ∧
    (∀ e ∈ (on_fragment env srv routing S frag).2, emitsAck e = false) ∧
    (∀ r nb ch, alookup srv.senders.node_path src = some r →
      r.current_hop = some nb →
      alookup srv.senders.packet_send nb = some ch →
      sentPackets (on_fragment env srv routing S frag).2 =
        [(ch, ⟨r, S, .Nack ⟨frag.fragment_index, .UnexpectedRecipient srv.id⟩⟩)]) := by
  have hof : on_fragment env srv routing S frag =
      match send_packet env srv.senders src
          (.Nack ⟨frag.fragment_index, .UnexpectedRecipient srv.id⟩) (some S) with
      | .error _ => (srv, [Effect.warned])
      | .ok (senders, effects, _) => ({ srv with senders }, effects) := by
    unfold on_fragment
    rw [hsrc]
    simp only [if_pos hdst]
  refine ⟨?_, ?_, ?_⟩
  · rw [hof]
    cases hsp : send_packet env srv.senders src
        (.Nack ⟨frag.fragment_index, .UnexpectedRecipient srv.id⟩) (some S) with
    | error e => rfl
    | ok out =>
      obtain ⟨senders', effects, b⟩ := out
      have : senders' = srv.senders :=
        send_packet_fixed_state env srv.senders src
          (.Nack ⟨frag.fragment_index, .UnexpectedRecipient srv.id⟩) S
          (senders', effects, b) rfl hsp
      simp [this]
  · rw [hof]
    cases hsp : send_packet env srv.senders src
        (.Nack ⟨frag.fragment_index, .UnexpectedRecipient srv.id⟩) (some S) with
    | error e => intro e he; simp at he; subst he; rfl
    | ok out =>
      obtain ⟨senders', effects, b⟩ := out
      intro e he
      simp only at he
      have := mem_send_packet_effects env srv.senders src _ (some S)
        (senders', effects, b) e hsp he
      rcases this with ⟨d, p, ok, hshape, hpt⟩ | hwarn
      · rcases hshape with h1 | h1 | h1 <;> subst h1 <;>
          simp [(emitsAck_shapes p d ok).1, (emitsAck_shapes p d ok).2.1,
            (emitsAck_shapes p d ok).2.2, isAckPacket, hpt]
      · subst hwarn; rfl
  · intro r nb ch h1 h2 h3
    rw [hof, send_packet_fixed env srv.senders src _ S r nb ch h1 h2 h3]
    exact sentPackets_send_packet_raw env ch srv.senders.controller_send srv.senders.history _

/-- Witness for C5 at a concrete state with a stored route to the source:
the state is unchanged, no Ack appears in the trace and exactly the one
UnexpectedRecipient Nack is sent on the stored route with session 5. -/
theorem C5_unexpected_recipient_witness :
    (on_fragment ⟨[], false⟩
        ⟨true, 0, ⟨99, [(7, 50)], 0, [(1, ⟨1, [0, 7, 1]⟩)], []⟩, ⟨[], []⟩, []⟩
        ⟨1, [1, 2]⟩ 5 ⟨0, 1, [2]⟩).1 =
      ⟨true, 0, ⟨99, [(7, 50)], 0, [(1, ⟨1, [0, 7, 1]⟩)], []⟩, ⟨[], []⟩, []⟩ ∧
    (∀ e ∈ (on_fragment ⟨[], false⟩
        ⟨true, 0, ⟨99, [(7, 50)], 0, [(1, ⟨1, [0, 7, 1]⟩)], []⟩, ⟨[], []⟩, []⟩
        ⟨1, [1, 2]⟩ 5 ⟨0, 1, [2]⟩).2, emitsAck e = false) ∧
    sentPackets (on_fragment ⟨[], false⟩
        ⟨true, 0, ⟨99, [(7, 50)], 0, [(1, ⟨1, [0, 7, 1]⟩)], []⟩, ⟨[], []⟩, []⟩
        ⟨1, [1, 2]⟩ 5 ⟨0, 1, [2]⟩).2 =
      [(50, ⟨⟨1, [0, 7, 1]⟩, 5, .Nack ⟨0, .UnexpectedRecipient 0⟩⟩)] := by
  have h := C5_unexpected_recipient ⟨[], false⟩
    ⟨true, 0, ⟨99, [(7, 50)], 0, [(1, ⟨1, [0, 7, 1]⟩)], []⟩, ⟨[], []⟩, []⟩
    ⟨1, [1, 2]⟩ 5 ⟨0, 1, [2]⟩ 1 rfl (by decide)
  exact ⟨h.1, h.2.1, h.2.2 ⟨1, [0, 7, 1]⟩ 7 50 rfl rfl rfl⟩

/-- The path trace of a flood request after the server stamps itself. -/
def floodTrace (self : NodeId) (req : FloodRequest) : List (NodeId × NodeType) :=
  req.path_trace ++ [(self, NodeType.Server)]

/-- The return route a flood request yields: the stamped trace's node ids
in reverse order, with the initiator appended when the trace omitted it. -/
def floodPath (self : NodeId) (req : FloodRequest) : Routing :=
  let path := Routing.with_first_hop (((floodTrace self req).map Prod.fst).reverse)
  match path.destination with
  | some destination =>
    if destination ≠ req.initiator_id then path.append_hop req.initiator_id else path
  | none => path

/-- The sender state after a flood request stored its return route. -/
def floodStore (srv : Server) (req : FloodRequest) : ServerSenders :=
  { srv.senders with
    node_path := ainsert srv.senders.node_path req.initiator_id (floodPath srv.id req) }

theorem send_packet_preserves (env : Env) (senders : ServerSenders) (dest : NodeId)
    (pt : PacketType) (fs : Option Session) (out : ServerSenders × List Effect × Bool)
    (h : send_packet env senders dest pt fs = .ok out) :
    out.1.controller_send = senders.controller_send ∧
      out.1.packet_send = senders.packet_send ∧
      out.1.node_path = senders.node_path := by
  unfold send_packet at h
  cases hp : prepare_node_send senders dest fs.isNone with
  | error e => rw [hp] at h; cases h
  | ok x =>
    obtain ⟨s', pns⟩ := x
    rw [hp] at h
    simp only [Except.ok.injEq] at h
    obtain ⟨h1, h2, h3, h4⟩ := prepare_node_send_preserves senders dest _ s' pns hp
    rw [← h]
    exact ⟨h1, h2, h3⟩

/-- Counterexample for C4 as stated: a fresh server with no neighbor
endpoints receives a flood request from initiator 9.  The route is stored,
but no `FloodResponse` is emitted — the engine only logs, because the
stored route's current hop (node 9) has no registered endpoint. -/
theorem C4_flood_response_counterexample :
    on_flood_request ⟨[], false⟩ (Server.create 0 99 [] [] []) ⟨123, 9, [(9, .Client)]⟩ =
        (⟨true, 0, ⟨99, [], 0, [(9, ⟨1, [0, 9]⟩)], []⟩, ⟨[], []⟩, []⟩, [Effect.warned]) ∧
    sentPackets [Effect.warned] = [] := by
  exact ⟨rfl, rfl⟩

/-- C4 (amended): on a flood request the engine unconditionally stores
`floodPath` (the stamped trace's node ids reversed, with the initiator
appended when missing) as the route to the initiator; when that route's
current hop has a registered neighbor endpoint, exactly one packet goes
out: a `FloodResponse` carrying the request's flood id and the stamped
trace, routed on the stored path under a freshly allocated session. -/
theorem C4_flood_response (env : Env) (srv : Server) (req : FloodRequest) :
    alookup (on_flood_request env srv req).1.senders.node_path req.initiator_id =
        some (floodPath srv.id req) ∧
    (∀ nb ch, (floodPath srv.id req).current_hop = some nb →
      alookup srv.senders.packet_send nb = some ch →
      sentPackets (on_flood_request env srv req).2 =
        [(ch, ⟨floodPath srv.id req, (srv.senders.session_id + 1) % U64MOD,
          .FloodResponse ⟨req.flood_id, floodTrace srv.id req⟩⟩)]) := by
  have hshape : on_flood_request env srv req =
      match send_packet env (floodStore srv req) req.initiator_id
          (.FloodResponse ⟨req.flood_id, floodTrace srv.id req⟩) none with
      | .error _ => ({ srv with senders := floodStore srv req }, [Effect.warned])
      | .ok (senders, effects, _) => ({ srv with senders }, effects) := by
    unfold on_flood_request floodStore floodPath floodTrace
    rfl
  constructor
  · rw [hshape]
    cases hsp : send_packet env (floodStore srv req) req.initiator_id
        (.FloodResponse ⟨req.flood_id, floodTrace srv.id req⟩) none with
    | error e =>
      simp [floodStore, alookup_ainsert]
    | ok out =>
      obtain ⟨senders', effects, b⟩ := out
      obtain ⟨-, -, h3⟩ := send_packet_preserves env _ req.initiator_id _ none
        (senders', effects, b) hsp
      simp only
      rw [show ({ srv with senders := senders' } : Server).senders.node_path =
        senders'.node_path from rfl, h3]
      simp [floodStore, alookup_ainsert]
  · intro nb ch h2 h3
    rw [hshape]
    rw [send_packet_alloc env (floodStore srv req) req.initiator_id _ (floodPath srv.id req)
      nb ch (by simpa [floodStore] using
        alookup_ainsert srv.senders.node_path req.initiator_id (floodPath srv.id req))
      h2 (by simpa [floodStore] using h3)]
    exact sentPackets_send_packet_raw env ch _ _ _

/-- Witness for C4 at a concrete input: server 0 with neighbor 3 receives
a flood request from initiator 9 traced through drone 3; the reversed
stamped trace is stored and the flood response goes to endpoint 60 on a
fresh session. -/
theorem C4_flood_response_witness :
    alookup (on_flood_request ⟨[], false⟩
        ⟨true, 0, ⟨99, [(3, 60)], 0, [], []⟩, ⟨[], []⟩, []⟩
        ⟨123, 9, [(9, .Client), (3, .Drone)]⟩).1.senders.node_path 9 =
      some (floodPath 0 ⟨123, 9, [(9, .Client), (3, .Drone)]⟩) ∧
    sentPackets (on_flood_request ⟨[], false⟩
        ⟨true, 0, ⟨99, [(3, 60)], 0, [], []⟩, ⟨[], []⟩, []⟩
        ⟨123, 9, [(9, .Client), (3, .Drone)]⟩).2 =
      [(60, ⟨floodPath 0 ⟨123, 9, [(9, .Client), (3, .Drone)]⟩, (0 + 1) % U64MOD,
        .FloodResponse ⟨123, floodTrace 0 ⟨123, 9, [(9, .Client), (3, .Drone)]⟩⟩⟩)] := by
  have h := C4_flood_response ⟨[], false⟩
    ⟨true, 0, ⟨99, [(3, 60)], 0, [], []⟩, ⟨[], []⟩, []⟩
    ⟨123, 9, [(9, .Client), (3, .Drone)]⟩
  exact ⟨h.1, h.2 3 60 rfl rfl⟩

/-- The sender state after reverse-path learning stored the reversed
inbound route (hop index advanced past self) as the route to the source. -/
def learnStore (srv : Server) (routing : Routing) (src : NodeId) : ServerSenders :=
  { srv.senders with
    node_path := ainsert srv.senders.node_path src routing.get_reversed.increase_hop_index }

theorem on_fragment_self_shape (env : Env) (srv : Server) (routing : Routing)
    (S : Session) (frag : Fragment) (src : NodeId)
    (hsrc : routing.source = some src) (hdst : routing.destination = some srv.id) :
    on_fragment env srv routing S frag =
      (let srv1 : Server := { srv with senders := learnStore srv routing src }
       let ackResult :=
         match send_packet env srv1.senders src (.Ack ⟨frag.fragment_index⟩) (some S) with
         | .error _ => (srv1, [Effect.warned])
         | .ok (senders, effects, _) => ({ srv1 with senders }, effects)
       let srv2 := ackResult.1
       let ackEffects := ackResult.2
       let fragments := (alookup srv2.pending_fragments (S, src)).getD [] ++ [frag]
       if fragments.length = frag.total_n_fragments then
         match Message.from_fragments fragments with
         | some message =>
           ({ srv2 with pending_fragments := aerase srv2.pending_fragments (S, src) },
             ackEffects ++ [Effect.dispatched src message S])
         | none =>
           ({ srv2 with pending_fragments := aerase srv2.pending_fragments (S, src) },
             ackEffects ++ [Effect.warned])
       else
         ({ srv2 with pending_fragments := ainsert srv2.pending_fragments (S, src) fragments },
           ackEffects)) := by
  unfold on_fragment learnStore
  simp only [hsrc]
  rw [if_neg (by simp [hdst])]

/-- C9: the flush decision compares the raw buffered count (duplicates
included) with the arriving fragment's `total_n_fragments`: when the
buffer for `(S, src)` holds `k - 1` fragments and a fragment announcing
`total_n_fragments = k` arrives, the buffer entry is removed and a decode
of the buffered list (duplicates and all) is attempted — dispatching on
success, logging on failure. -/
theorem C9_flush_counts_duplicates (env : Env) (srv : Server) (routing : Routing)
    (S : Session) (frag : Fragment) (src : NodeId) (l : List Fragment)
    (hsrc : routing.source = some src)
    (hdst : routing.destination = some srv.id)
    (hpend : alookup srv.pending_fragments (S, src) = some l)
    (hlen : l.length + 1 = frag.total_n_fragments) :
    alookup (on_fragment env srv routing S frag).1.pending_fragments (S, src) = none ∧
    (∃ ackEffects, (on_fragment env srv routing S frag).2 =
      ackEffects ++ match Message.from_fragments (l ++ [frag]) with
        | some message => [Effect.dispatched src message S]
        | none => [Effect.warned]) := by
  rw [on_fragment_self_shape env srv routing S frag src hsrc hdst]
  dsimp only
  cases hack : send_packet env (learnStore srv routing src) src (.Ack ⟨frag.fragment_index⟩)
      (some S) with
  | error e =>
    simp only [hpend, Option.getD_some, List.length_append, List.length_cons,
      List.length_nil, hlen, if_pos rfl]
    cases hm : Message.from_fragments (l ++ [frag]) with
    | some message => exact ⟨alookup_aerase _ _, [Effect.warned], rfl⟩
    | none => exact ⟨alookup_aerase _ _, [Effect.warned], rfl⟩
  | ok out =>
    obtain ⟨senders', effects, b⟩ := out
    simp only [hpend, Option.getD_some, List.length_append, List.length_cons,
      List.length_nil, hlen, if_pos rfl]
    cases hm : Message.from_fragments (l ++ [frag]) with
    | some message => exact ⟨alookup_aerase _ _, effects, rfl⟩
    | none => exact ⟨alookup_aerase _ _, effects, rfl⟩

/-- Witness for C9 at a concrete input: the buffer for (5, 1) holds one
fragment of an announced pair, and a duplicate of the same fragment index
arrives; the entry is flushed (removed) and the decode of the duplicated
pair is attempted. -/
theorem C9_flush_counts_duplicates_witness :
    alookup (on_fragment ⟨[], false⟩
        ⟨true, 0, ⟨99, [], 0, [], []⟩, ⟨[], []⟩, [((5, 1), [⟨0, 2, [2]⟩])]⟩
        ⟨1, [1, 0]⟩ 5 ⟨0, 2, [2]⟩).1.pending_fragments (5, 1) = none ∧
    (∃ ackEffects, (on_fragment ⟨[], false⟩
        ⟨true, 0, ⟨99, [], 0, [], []⟩, ⟨[], []⟩, [((5, 1), [⟨0, 2, [2]⟩])]⟩
        ⟨1, [1, 0]⟩ 5 ⟨0, 2, [2]⟩).2 =
      ackEffects ++ match Message.from_fragments ([⟨0, 2, [2]⟩] ++ [⟨0, 2, [2]⟩]) with
        | some message => [Effect.dispatched 1 message 5]
        | none => [Effect.warned]) := by
  exact C9_flush_counts_duplicates ⟨[], false⟩
    ⟨true, 0, ⟨99, [], 0, [], []⟩, ⟨[], []⟩, [((5, 1), [⟨0, 2, [2]⟩])]⟩
    ⟨1, [1, 0]⟩ 5 ⟨0, 2, [2]⟩ 1 [⟨0, 2, [2]⟩] rfl rfl rfl rfl

/-- C10: when the per-fragment Ack cannot be sent (here: the route to the
source resolves to no known neighbor endpoint, so the ack send errors),
processing continues: the reverse path is still stored, the fragment is
still buffered, and a complete group is still flushed, decoded and
dispatched. -/
theorem C10_ack_failure_continues (env : Env) (srv : Server) (routing : Routing)
    (S : Session) (frag : Fragment) (src : NodeId) (err : PrepareNodeSendError)
    (hsrc : routing.source = some src)
    (hdst : routing.destination = some srv.id)
    (hfail : send_packet env (learnStore srv routing src) src (.Ack ⟨frag.fragment_index⟩)
      (some S) = .error err) :
    (on_fragment env srv routing S frag).1.senders.node_path =
        ainsert srv.senders.node_path src routing.get_reversed.increase_hop_index ∧
    (if ((alookup srv.pending_fragments (S, src)).getD [] ++ [frag]).length =
        frag.total_n_fragments then
      alookup (on_fragment env srv routing S frag).1.pending_fragments (S, src) = none ∧
        (on_fragment env srv routing S frag).2 =
          Effect.warned ::
            match Message.from_fragments
                ((alookup srv.pending_fragments (S, src)).getD [] ++ [frag]) with
            | some message => [Effect.dispatched src message S]
            | none => [Effect.warned]
    else
      alookup (on_fragment env srv routing S frag).1.pending_fragments (S, src) =
          some ((alookup srv.pending_fragments (S, src)).getD [] ++ [frag]) ∧
        (on_fragment env srv routing S frag).2 = [Effect.warned]) := by
  rw [on_fragment_self_shape env srv routing S frag src hsrc hdst]
  dsimp only
  rw [hfail]
  dsimp only
  constructor
  · repeat' first | rfl | split
  · split
    · constructor
      · split <;> exact alookup_aerase srv.pending_fragments (S, src)
      · split <;> rfl
    · constructor
      · exact alookup_ainsert srv.pending_fragments (S, src)
          ((alookup srv.pending_fragments (S, src)).getD [] ++ [frag])
      · rfl

/-- Witness for C10 at a concrete input: a server with no neighbor
endpoints receives a single-fragment group; the ack send fails with
`UnknownNodeId 1`, yet the reverse path is stored, the buffer entry is
flushed and the decoded `ReqChatRegistration` is dispatched. -/
theorem C10_ack_failure_continues_witness :
    (on_fragment ⟨[], false⟩ (Server.create 0 99 [] [] []) ⟨1, [1, 0]⟩ 5
        ⟨0, 1, [2]⟩).1.senders.node_path =
      ainsert (Server.create 0 99 [] [] []).senders.node_path 1
        (Routing.increase_hop_index (Routing.get_reversed ⟨1, [1, 0]⟩)) ∧
    (on_fragment ⟨[], false⟩ (Server.create 0 99 [] [] []) ⟨1, [1, 0]⟩ 5 ⟨0, 1, [2]⟩).2 =
      [Effect.warned, Effect.dispatched 1 .ReqChatRegistration 5] ∧
    alookup (on_fragment ⟨[], false⟩ (Server.create 0 99 [] [] []) ⟨1, [1, 0]⟩ 5
        ⟨0, 1, [2]⟩).1.pending_fragments (5, 1) = none := by
  have h := C10_ack_failure_continues ⟨[], false⟩ (Server.create 0 99 [] [] [])
    ⟨1, [1, 0]⟩ 5 ⟨0, 1, [2]⟩ 1 (.UnknownNodeId 1) rfl rfl rfl
  exact ⟨h.1, rfl, rfl⟩

theorem send_message_raw_preserves (env : Env) (start : NodeId) (senders : ServerSenders)
    (dest : NodeId) (m : Message) (fs : Option Session)
    (out : ServerSenders × List Effect × List Bool)
    (h : send_message_raw env start senders dest m fs = .ok out) :
    out.1.controller_send = senders.controller_send ∧
      out.1.packet_send = senders.packet_send ∧
      out.1.node_path = senders.node_path := by
  unfold send_message_raw at h
  cases hp : prepare_node_send senders dest fs.isNone with
  | error e => rw [hp] at h; cases h
  | ok x =>
    obtain ⟨s', pns⟩ := x
    rw [hp] at h
    simp only [Except.ok.injEq] at h
    obtain ⟨h1, h2, h3, h4⟩ := prepare_node_send_preserves senders dest _ s' pns hp
    rw [← h]
    exact ⟨h1, h2, h3⟩

theorem send_message_preserves (env : Env) (start : NodeId) (senders : ServerSenders)
    (dest : NodeId) (m : Message) (fs : Option Session) :
    (send_message env start senders dest m fs).1.controller_send = senders.controller_send ∧
      (send_message env start senders dest m fs).1.packet_send = senders.packet_send ∧
      (send_message env start senders dest m fs).1.node_path = senders.node_path := by
  unfold send_message
  cases h : send_message_raw env start senders dest m fs with
  | error e => exact ⟨rfl, rfl, rfl⟩
  | ok out =>
    obtain ⟨s', effects, errors⟩ := out
    exact send_message_raw_preserves env start senders dest m fs (s', effects, errors) h

theorem foldl_sendFragmentStep_mono (env : Env) (nb c : Sender) (r : Routing) (s : Session)
    (frags : List Fragment) (acc : PacketHistory × List Effect × List Bool) :
    ∃ suffix, (frags.foldl (sendFragmentStep env nb c r s) acc).2.1 = acc.2.1 ++ suffix := by
  induction frags generalizing acc with
  | nil => exact ⟨[], by simp⟩
  | cons f t ih =>
    obtain ⟨suffix, hs⟩ := ih (sendFragmentStep env nb c r s acc f)
    refine ⟨(send_packet_raw env nb c acc.1 ⟨r, s, .MsgFragment f⟩).effects ++ suffix, ?_⟩
    rw [List.foldl_cons, hs]
    simp [sendFragmentStep]

theorem prepare_node_send_alloc (senders : ServerSenders) (dest : NodeId)
    (r : Routing) (nb : NodeId) (ch : Sender)
    (h1 : alookup senders.node_path dest = some r) (h2 : r.current_hop = some nb)
    (h3 : alookup senders.packet_send nb = some ch) :
    prepare_node_send senders dest true =
      .ok ({ senders with session_id := (senders.session_id + 1) % U64MOD },
        ⟨r, (senders.session_id + 1) % U64MOD, ch⟩) := by
  rw [prepare_node_send_ok senders dest true r nb ch h1 h2 h3]
  rfl

theorem send_message_start_mem (env : Env) (start : NodeId) (senders : ServerSenders)
    (dest : NodeId) (m : Message) (r : Routing) (nb : NodeId) (ch : Sender)
    (h1 : alookup senders.node_path dest = some r) (h2 : r.current_hop = some nb)
    (h3 : alookup senders.packet_send nb = some ch) :
    ∃ s ok, Effect.controllerEvent (.MessageStartSend start s dest m) ok ∈
      (send_message env start senders dest m none).2 := by
  refine ⟨(senders.session_id + 1) % U64MOD, !env.controllerClosed, ?_⟩
  unfold send_message send_message_raw
  rw [show (none : Option Session).isNone = true from rfl,
    prepare_node_send_alloc senders dest r nb ch h1 h2 h3]
  dsimp only [Option.getD]
  obtain ⟨suffix, hs⟩ := foldl_sendFragmentStep_mono env ch senders.controller_send r
    ((senders.session_id + 1) % U64MOD) m.into_fragments
    (senders.history,
      Effect.controllerEvent
          (.MessageStartSend start ((senders.session_id + 1) % U64MOD) dest m)
          (!env.controllerClosed) ::
        (if !env.controllerClosed then [] else [Effect.warned]), [])
  rw [hs]
  simp

theorem chunkBytesAux_ne_nil (fuel : Nat) (l : List Nat) : chunkBytesAux fuel l ≠ [] := by
  cases fuel with
  | zero => simp [chunkBytesAux]
  | succ n =>
    simp only [chunkBytesAux]
    split <;> simp

theorem into_fragments_ne_nil (m : Message) : m.into_fragments ≠ [] := by
  unfold Message.into_fragments
  cases hc : chunkBytes m.encode with
  | nil => exact absurd hc (chunkBytesAux_ne_nil _ _)
  | cons c t => simp [fragmentsOf]

theorem packetSent_mem_send_packet_raw (env : Env) (d c : Sender) (h : PacketHistory)
    (p : Packet) :
    Effect.packetSent d p (env.sendOk d) ∈ (send_packet_raw env d c h p).effects := by
  unfold send_packet_raw
  by_cases hrec : recordInHistory p.pack_type <;>
    by_cases hu : useShortcut p.pack_type <;>
      by_cases hc : env.controllerClosed <;>
        by_cases hs : env.sendOk d <;>
          simp [hrec, hu, hc, hs]

theorem send_message_frag_mem (env : Env) (start : NodeId) (senders : ServerSenders)
    (dest : NodeId) (m : Message) (r : Routing) (nb : NodeId) (ch : Sender)
    (h1 : alookup senders.node_path dest = some r) (h2 : r.current_hop = some nb)
    (h3 : alookup senders.packet_send nb = some ch) :
    ∃ s f ok, f ∈ m.into_fragments ∧
      Effect.packetSent ch ⟨r, s, .MsgFragment f⟩ ok ∈
        (send_message env start senders dest m none).2 := by
  refine ⟨(senders.session_id + 1) % U64MOD, ?_⟩
  unfold send_message send_message_raw
  rw [show (none : Option Session).isNone = true from rfl,
    prepare_node_send_alloc senders dest r nb ch h1 h2 h3]
  dsimp only [Option.getD]
  cases hf : m.into_fragments with
  | nil => exact absurd hf (into_fragments_ne_nil m)
  | cons f0 rest =>
    refine ⟨f0, env.sendOk ch, by exact hf ▸ List.mem_cons_self f0 rest, ?_⟩
    rw [List.foldl_cons]
    obtain ⟨suffix, hs⟩ := foldl_sendFragmentStep_mono env ch senders.controller_send r
      ((senders.session_id + 1) % U64MOD) rest
      (sendFragmentStep env ch senders.controller_send r ((senders.session_id + 1) % U64MOD)
        (senders.history,
          Effect.controllerEvent
              (.MessageStartSend start ((senders.session_id + 1) % U64MOD) dest m)
              (!env.controllerClosed) ::
            (if !env.controllerClosed then [] else [Effect.warned]), [])
        f0)
    rw [hs]
    have hm := packetSent_mem_send_packet_raw env ch senders.controller_send senders.history
      ⟨r, (senders.session_id + 1) % U64MOD, .MsgFragment f0⟩
    simp only [sendFragmentStep, List.mem_append]
    exact .inl (.inl (.inl (.inr hm)))

theorem foldl_broadcastStep_mono (env : Env) (server : NodeId) (msg : Message)
    (clients : List NodeId) (acc : ServerSenders × List Effect) :
    ∃ suffix, (clients.foldl (broadcastStep env server msg) acc).2 = acc.2 ++ suffix := by
  induction clients generalizing acc with
  | nil => exact ⟨[], by simp⟩
  | cons hd t ih =>
    obtain ⟨suffix, hs⟩ := ih (broadcastStep env server msg acc hd)
    refine ⟨(send_message env server acc.1 hd msg none).2 ++ suffix, ?_⟩
    rw [List.foldl_cons, hs]
    simp [broadcastStep]

theorem broadcast_reaches (env : Env) (server : NodeId) (msg : Message)
    (clients : List NodeId) (senders : ServerSenders) (effs0 : List Effect) (c : NodeId)
    (hc : c ∈ clients) (r : Routing) (nb : NodeId) (ch : Sender)
    (h1 : alookup senders.node_path c = some r) (h2 : r.current_hop = some nb)
    (h3 : alookup senders.packet_send nb = some ch) :
    (∃ s ok, Effect.controllerEvent (.MessageStartSend server s c msg) ok ∈
      (clients.foldl (broadcastStep env server msg) (senders, effs0)).2) ∧
    (∃ s f ok, f ∈ msg.into_fragments ∧
      Effect.packetSent ch ⟨r, s, .MsgFragment f⟩ ok ∈
        (clients.foldl (broadcastStep env server msg) (senders, effs0)).2) := by
  induction clients generalizing senders effs0 with
  | nil => cases hc
  | cons hd t ih =>
    rw [List.foldl_cons]
    rcases List.mem_cons.mp hc with hceq | hct
    · subst hceq
      obtain ⟨s, ok, hmem⟩ := send_message_start_mem env server senders c msg r nb ch h1 h2 h3
      obtain ⟨s', f, ok', hfmem, hmem'⟩ :=
        send_message_frag_mem env server senders c msg r nb ch h1 h2 h3
      obtain ⟨suffix, hs⟩ := foldl_broadcastStep_mono env server msg t
        (broadcastStep env server msg (senders, effs0) c)
      rw [hs]
      constructor
      · refine ⟨s, ok, ?_⟩
        simp only [broadcastStep, List.mem_append]
        exact .inl (.inr hmem)
      · refine ⟨s', f, ok', hfmem, ?_⟩
        simp only [broadcastStep, List.mem_append]
        exact .inl (.inr hmem')
    · obtain ⟨hp1, hp2, hp3⟩ := send_message_preserves env server senders hd msg none
      refine ih (send_message env server senders hd msg none).1
        (effs0 ++ (send_message env server senders hd msg none).2) hct ?_ ?_
      · rw [hp3]; exact h1
      · rw [hp2]; exact h3

/-- Counterexample for C3 as stated: with one registered route (peer 0 is
reachable), processing `ReqChatRegistration` from peer 0 does send a
message — the engine broadcasts a `RespClientList` fragment to the peer on
a freshly allocated session — so the registration is not response-free. -/
theorem C3_registration_counterexample :
    sentPackets (ChatServer.on_message ⟨[], false⟩ ⟨[]⟩ 0
        ⟨99, [(0, 50)], 0, [(0, ⟨1, [0, 0]⟩)], []⟩ 0 .ReqChatRegistration 0).2.2 =
      [(50, ⟨⟨1, [0, 0]⟩, 1, .MsgFragment ⟨0, 1, [4, 1, 0]⟩⟩)] ∧
    (ChatServer.on_message ⟨[], false⟩ ⟨[]⟩ 0
        ⟨99, [(0, 50)], 0, [(0, ⟨1, [0, 0]⟩)], []⟩ 0 .ReqChatRegistration 0).2.2 =
      [Effect.controllerEvent (.MessageStartSend 0 1 0 (.RespClientList [0])) true,
        Effect.controllerEvent
          (.PacketSend ⟨⟨1, [0, 0]⟩, 1, .MsgFragment ⟨0, 1, [4, 1, 0]⟩⟩) true,
        Effect.packetSent 50 ⟨⟨1, [0, 0]⟩, 1, .MsgFragment ⟨0, 1, [4, 1, 0]⟩⟩ true,
        Effect.controllerEvent (.MessageFullySent 0 1) true] := by
  exact ⟨rfl, rfl⟩

/-- C3 (amended): `ReqChatRegistration` from peer `p` adds `p` to the
registered-client set (idempotently: a repeated registration leaves the
set unchanged); it is not response-free: for every registered client
(`p` included) whose stored route resolves to a registered neighbor
endpoint, the trace contains a `MessageStartSend` controller event
announcing a `RespClientList` of the updated set to that client, and a
fragment of that list, carried on the client's stored route, is handed to
the client's neighbor endpoint. -/
theorem C3_registration (env : Env) (chat : ChatServer) (server : NodeId)
    (senders : ServerSenders) (p : NodeId) (S : Session) :
    (ChatServer.on_message env chat server senders p .ReqChatRegistration S).1.connected_clients =
        insertClient p chat.connected_clients ∧
    (p ∈ chat.connected_clients →
      (ChatServer.on_message env chat server senders p .ReqChatRegistration S).1.connected_clients =
        chat.connected_clients) ∧
    (∀ c, c ∈ insertClient p chat.connected_clients → ∀ r nb ch,
      alookup senders.node_path c = some r → r.current_hop = some nb →
      alookup senders.packet_send nb = some ch →
      (∃ s ok, Effect.controllerEvent
          (.MessageStartSend server s c (.RespClientList (insertClient p chat.connected_clients)))
          ok ∈
        (ChatServer.on_message env chat server senders p .ReqChatRegistration S).2.2) ∧
      (∃ s f ok,
        f ∈ (Message.RespClientList (insertClient p chat.connected_clients)).into_fragments ∧
        Effect.packetSent ch ⟨r, s, .MsgFragment f⟩ ok ∈
          (ChatServer.on_message env chat server senders p .ReqChatRegistration S).2.2)) := by
  refine ⟨rfl, ?_, ?_⟩
  · intro hp
    show insertClient p chat.connected_clients = chat.connected_clients
    simp [insertClient, hp]
  · intro c hc r nb ch h1 h2 h3
    exact broadcast_reaches env server (.RespClientList (insertClient p chat.connected_clients))
      (insertClient p chat.connected_clients) senders [] c hc r nb ch h1 h2 h3

/-- Witness for C3 at concrete inputs: registering peer 0 yields client
set `[0]`, a broadcast start event toward peer 0 appears in the trace and
a `RespClientList` fragment is handed to peer 0's endpoint on its stored
route; registering peer 0 again on the updated state leaves the set
`[0]`. -/
theorem C3_registration_witness :
    (ChatServer.on_message ⟨[], false⟩ ⟨[]⟩ 0
        ⟨99, [(0, 50)], 0, [(0, ⟨1, [0, 0]⟩)], []⟩ 0 .ReqChatRegistration 0).1.connected_clients =
      insertClient 0 [] ∧
    (∃ s ok, Effect.controllerEvent
        (.MessageStartSend 0 s 0 (.RespClientList (insertClient 0 []))) ok ∈
      (ChatServer.on_message ⟨[], false⟩ ⟨[]⟩ 0
        ⟨99, [(0, 50)], 0, [(0, ⟨1, [0, 0]⟩)], []⟩ 0 .ReqChatRegistration 0).2.2) ∧
    (∃ s f ok, f ∈ (Message.RespClientList (insertClient 0 [])).into_fragments ∧
      Effect.packetSent 50 ⟨⟨1, [0, 0]⟩, s, .MsgFragment f⟩ ok ∈
      (ChatServer.on_message ⟨[], false⟩ ⟨[]⟩ 0
        ⟨99, [(0, 50)], 0, [(0, ⟨1, [0, 0]⟩)], []⟩ 0 .ReqChatRegistration 0).2.2) ∧
    (ChatServer.on_message ⟨[], false⟩ ⟨[0]⟩ 0
        ⟨99, [(0, 50)], 0, [(0, ⟨1, [0, 0]⟩)], []⟩ 0 .ReqChatRegistration 0).1.connected_clients =
      [0] := by
  refine ⟨(C3_registration ⟨[], false⟩ ⟨[]⟩ 0
      ⟨99, [(0, 50)], 0, [(0, ⟨1, [0, 0]⟩)], []⟩ 0 0).1, ?_, ?_, ?_⟩
  · exact ((C3_registration ⟨[], false⟩ ⟨[]⟩ 0
      ⟨99, [(0, 50)], 0, [(0, ⟨1, [0, 0]⟩)], []⟩ 0 0).2.2 0 (by decide)
      ⟨1, [0, 0]⟩ 0 50 rfl rfl rfl).1
  · exact ((C3_registration ⟨[], false⟩ ⟨[]⟩ 0
      ⟨99, [(0, 50)], 0, [(0, ⟨1, [0, 0]⟩)], []⟩ 0 0).2.2 0 (by decide)
      ⟨1, [0, 0]⟩ 0 50 rfl rfl rfl).2
  · exact (C3_registration ⟨[], false⟩ ⟨[0]⟩ 0
      ⟨99, [(0, 50)], 0, [(0, ⟨1, [0, 0]⟩)], []⟩ 0 0).2.1 (by decide)
